import Mathlib

/-!
Verification of the megaui-macroquad adapter (`src/lib.rs`).

The repository is a thin binding layer between the `megaui` immediate-mode
UI library and the `macroquad` engine.  We embed the adapter's state and its
five public entry points (`set_ui_style`, `set_megaui_texture`, `draw_window`,
`mouse_over_ui`, `mouse_captured`, `draw_megaui`) plus the private
`process_input` as explicit state-passing functions.

External collaborators are modelled as follows:
* the host input (macroquad's per-frame input queries) becomes a record
  `HostInput`; the typed-character queue is a list that draining consumes;
* the UI library (`megaui::Ui`) becomes a record `Ui` whose input handlers
  append to an event trace; its rendering side (windows, draw-list
  accumulation and `render`/`new_frame`) is modelled from the spec, since
  `megaui` is an external crate;
* the renderer (`quad_gl`) becomes a record `QuadGl` accumulating a trace of
  the calls (`texture`, `scissor`, `draw_mode`, `geometry`) it receives.

`f32` positions, wheel deltas and rectangle coordinates are modelled as `Int`
(sign inversion and the `as i32` cast are the only operations performed on
them).  The `HashMap<u32, Texture2D>` texture registry is modelled as an
association list with prepend-insert, which has the same lookup semantics;
the panicking index `map[&texture]` is modelled by `Option`, with `none`
standing for the fatal lookup failure.
-/

namespace MegauiMacroquad

/-- A renderer-native texture, identified by an opaque id. -/
structure Texture2D where
  tid : Nat
deriving DecidableEq, Repr

/-- Host-side (macroquad) key codes used by `process_input`. -/
inductive Key where
  | Up | Down | Right | Left | Home | End | Delete | Backspace | Tab
  | Z | Y | C | X | V | A | Escape | Enter
  | LeftShift | RightShift | LeftControl | RightControl
deriving DecidableEq, Repr

/-- UI-side (megaui) key codes forwarded by `process_input`. -/
inductive UiKey where
  | Up | Down | Right | Left | Home | End | Delete | Backspace | Tab
  | Z | Y | C | X | V | A | Escape | Enter | Control
deriving DecidableEq, Repr

/-- A clipping rectangle (megaui `Rect`), coordinates modelled as `Int`. -/
structure Rect where
  x : Int
  y : Int
  w : Int
  h : Int
deriving DecidableEq, Repr

/-- A megaui draw command (`megaui::DrawList`): vertex and index buffers, an
optional clipping rectangle and an optional texture handle. -/
structure DrawList where
  texture : Option Nat
  clipping_zone : Option Rect
  vertices : List Nat
  indices : List Nat
deriving DecidableEq, Repr

/-- An input event as received by the megaui `InputHandler` sink. -/
inductive UiEvent where
  | mouseMove (x y : Int)
  | mouseDown (x y : Int)
  | mouseUp (x y : Int)
  | charEvent (c : Char) (shift ctrl : Bool)
  | keyDownEvent (k : UiKey) (shift ctrl : Bool)
  | mouseWheel (x y : Int)
deriving DecidableEq, Repr

/-- The megaui `Ui` object.  The input side is an event trace; the rendering
side (`windows`, `pending`, `captured`, `style`) is modelled from the spec. -/
structure Ui where
  style : Nat
  events : List UiEvent
  windows : List Rect
  pending : List DrawList
  captured : Bool
deriving DecidableEq, Repr

/-- Append forwarded input events to the `Ui` trace (the common shape of all
megaui `InputHandler` methods). -/
def Ui.push (ui : Ui) (es : List UiEvent) : Ui :=
  { ui with events := ui.events ++ es }

/-- megaui `InputHandler::mouse_move`. -/
def Ui.mouse_move (ui : Ui) (x y : Int) : Ui :=
  ui.push [UiEvent.mouseMove x y]

/-- megaui `InputHandler::mouse_down`. -/
def Ui.mouse_down (ui : Ui) (x y : Int) : Ui :=
  ui.push [UiEvent.mouseDown x y]

/-- megaui `InputHandler::mouse_up`. -/
def Ui.mouse_up (ui : Ui) (x y : Int) : Ui :=
  ui.push [UiEvent.mouseUp x y]

/-- megaui `InputHandler::char_event`. -/
def Ui.char_event (ui : Ui) (c : Char) (shift ctrl : Bool) : Ui :=
  ui.push [UiEvent.charEvent c shift ctrl]

/-- megaui `InputHandler::key_down`. -/
def Ui.key_down (ui : Ui) (k : UiKey) (shift ctrl : Bool) : Ui :=
  ui.push [UiEvent.keyDownEvent k shift ctrl]

/-- megaui `InputHandler::mouse_wheel`. -/
def Ui.mouse_wheel (ui : Ui) (x y : Int) : Ui :=
  ui.push [UiEvent.mouseWheel x y]

/-- megaui `Ui::set_style`. -/
def Ui.set_style (ui : Ui) (style : Nat) : Ui :=
  { ui with style := style }

/-- Does the rectangle contain the point? (half-open on the far edges). -/
def Rect.contains (r : Rect) (x y : Int) : Bool :=
  decide (r.x ≤ x) && decide (x < r.x + r.w) &&
  decide (r.y ≤ y) && decide (y < r.y + r.h)

/-- Modelled from the spec: megaui `Ui::is_mouse_over` hit-tests the given
position against the screen rectangles of the declared windows. -/
def Ui.is_mouse_over (ui : Ui) (x y : Int) : Bool :=
  ui.windows.any (fun r => r.contains x y)

/-- megaui `Ui::is_mouse_captured` (true during active drag/scroll
interactions; modelled as a stored flag). -/
def Ui.is_mouse_captured (ui : Ui) : Bool :=
  ui.captured

/-- Modelled from the spec: megaui `Ui::render(&mut out)` appends the draw
commands accumulated from this frame's widget declarations into `out`, in
emission order. -/
def Ui.render (ui : Ui) (out : List DrawList) : List DrawList :=
  out ++ ui.pending

/-- Modelled from the spec: megaui `Ui::new_frame(dt)` advances the UI
library's per-frame state, clearing the accumulated draw commands so the next
frame starts accumulating afresh (the elapsed-time argument does not affect
the modelled state). -/
def Ui.new_frame (ui : Ui) : Ui :=
  { ui with pending := [] }

/-- Modelled from the spec: declaring `megaui::widgets::Window` with a
widget-building callback registers the window's screen rectangle for
hit-testing and appends the draw commands the window's content contributes to
the frame's accumulated draw lists.  `contributed` stands for the commands
produced by the embedder-supplied callback. -/
def Ui.declare_window (ui : Ui) (pos size : Int × Int)
    (contributed : List DrawList) : Ui :=
  { ui with
    windows := ui.windows ++ [⟨pos.1, pos.2, size.1, size.2⟩],
    pending := ui.pending ++ contributed }

/-- The host's per-frame input state (macroquad input queries).
`chars` is the pending typed-character queue drained by `get_char_pressed`. -/
structure HostInput where
  mousePos : Int × Int
  lmbPressed : Bool
  lmbReleased : Bool
  isKeyDown : Key → Bool
  isKeyPressed : Key → Bool
  chars : List Char
  wheel : Int × Int

/-- `is_key_down(LeftShift) || is_key_down(RightShift)` as computed at
src/lib.rs:165. -/
def HostInput.shiftHeld (inp : HostInput) : Bool :=
  inp.isKeyDown Key.LeftShift || inp.isKeyDown Key.RightShift

/-- `is_key_down(LeftControl) || is_key_down(RightControl)` as computed at
src/lib.rs:166. -/
def HostInput.ctrlHeld (inp : HostInput) : Bool :=
  inp.isKeyDown Key.LeftControl || inp.isKeyDown Key.RightControl

/-- The condition guarding the synthetic Control key-down at
src/lib.rs:200-204. -/
def HostInput.ctrlSignal (inp : HostInput) : Bool :=
  inp.isKeyDown Key.LeftControl || inp.isKeyDown Key.RightControl ||
  inp.isKeyPressed Key.LeftControl || inp.isKeyPressed Key.RightControl

/-- The texture registry `HashMap<u32, Texture2D>` as an association list;
lookup returns the most recently inserted binding for the handle. -/
def lookupTexture : List (Nat × Texture2D) → Nat → Option Texture2D
  | [], _ => none
  | (k, v) :: rest, h => if k = h then some v else lookupTexture rest h

/-- The `UiContext` struct of src/lib.rs:7-13. -/
structure UiContext where
  ui : Ui
  ui_draw_list : List DrawList
  font_texture : Texture2D
  megaui_textures : List (Nat × Texture2D)
  input_processed_this_frame : Bool
deriving DecidableEq, Repr

/-- The key allow-list expanded by the `process!` invocations at
src/lib.rs:182-198, paired with the megaui key codes they forward. -/
def keyPairs : List (Key × UiKey) :=
  [(Key.Up, UiKey.Up), (Key.Down, UiKey.Down), (Key.Right, UiKey.Right),
   (Key.Left, UiKey.Left), (Key.Home, UiKey.Home), (Key.End, UiKey.End),
   (Key.Delete, UiKey.Delete), (Key.Backspace, UiKey.Backspace),
   (Key.Tab, UiKey.Tab), (Key.Z, UiKey.Z), (Key.Y, UiKey.Y),
   (Key.C, UiKey.C), (Key.X, UiKey.X), (Key.V, UiKey.V), (Key.A, UiKey.A),
   (Key.Escape, UiKey.Escape), (Key.Enter, UiKey.Enter)]

/-- `process_input` (src/lib.rs:146-211): guarded by
`input_processed_this_frame`; forwards pointer move, edge-triggered button
events, the drained character queue (suppressed under Ctrl), the allow-listed
keys (pressed-or-held), a synthetic Control key-down, and the wheel delta
with inverted vertical axis; finally sets the flag.  Returns the updated host
input (the character queue is consumed) and the updated context. -/
def process_input (inp : HostInput) (ctx : UiContext) :
    HostInput × UiContext :=
  if ctx.input_processed_this_frame then (inp, ctx)
  else
    let pos := inp.mousePos
    let ui := ctx.ui.mouse_move pos.1 pos.2
    let ui := if inp.lmbPressed then ui.mouse_down pos.1 pos.2 else ui
    let ui := if inp.lmbReleased then ui.mouse_up pos.1 pos.2 else ui
    let shift := inp.shiftHeld
    let ctrl := inp.ctrlHeld
    let ui := inp.chars.foldl
      (fun u c => if ctrl = false then u.char_event c false false else u) ui
    let ui := keyPairs.foldl
      (fun u p =>
        if inp.isKeyPressed p.1 || inp.isKeyDown p.1 then
          u.key_down p.2 shift ctrl
        else u) ui
    let ui := if inp.ctrlSignal then ui.key_down UiKey.Control shift ctrl
      else ui
    let ui := ui.mouse_wheel inp.wheel.1 (-inp.wheel.2)
    ({ inp with chars := [] },
     { ctx with ui := ui, input_processed_this_frame := true })

/-- `set_ui_style` (src/lib.rs:94-98). -/
def set_ui_style (style : Nat) (ctx : UiContext) : UiContext :=
  { ctx with ui := ctx.ui.set_style style }

/-- `set_megaui_texture` (src/lib.rs:100-104): insert-or-replace into the
texture registry. -/
def set_megaui_texture (id : Nat) (texture : Texture2D)
    (ctx : UiContext) : UiContext :=
  { ctx with megaui_textures := (id, texture) :: ctx.megaui_textures }

/-- `draw_window` (src/lib.rs:106-130): runs `process_input`, then declares
the window against the UI library. -/
def draw_window (pos size : Int × Int) (contributed : List DrawList)
    (inp : HostInput) (ctx : UiContext) : HostInput × UiContext :=
  let r := process_input inp ctx
  (r.1, { r.2 with ui := r.2.ui.declare_window pos size contributed })

/-- `mouse_over_ui` (src/lib.rs:133-139): delegates to the UI library's
hit-test at the host's current mouse position. -/
def mouse_over_ui (inp : HostInput) (ctx : UiContext) : Bool :=
  ctx.ui.is_mouse_over inp.mousePos.1 inp.mousePos.2

/-- `mouse_captured` (src/lib.rs:142-144): delegates to the UI library. -/
def mouse_captured (ctx : UiContext) : Bool :=
  ctx.ui.is_mouse_captured

/-- The renderer's draw mode (only `Triangles` is used). -/
inductive DrawMode where
  | Triangles
deriving DecidableEq, Repr

/-- A call received by the renderer (`quad_gl`) during the replay loop. -/
inductive GlOp where
  | texture (t : Option Texture2D)
  | scissor (r : Option (Int × Int × Int × Int))
  | drawMode (m : DrawMode)
  | geometry (vs : List Nat) (ids : List Nat)
deriving DecidableEq, Repr

/-- The renderer state: the trace of calls it has received, and the
currently bound texture. -/
structure QuadGl where
  ops : List GlOp
  curTexture : Option Texture2D
deriving DecidableEq, Repr

/-- `quad_gl.texture(t)`: bind a texture (or unbind with `none`). -/
def QuadGl.texture (gl : QuadGl) (t : Option Texture2D) : QuadGl :=
  { ops := gl.ops ++ [GlOp.texture t], curTexture := t }

/-- `quad_gl.scissor(r)`: set or disable the clip rectangle. -/
def QuadGl.scissor (gl : QuadGl) (r : Option (Int × Int × Int × Int)) :
    QuadGl :=
  { gl with ops := gl.ops ++ [GlOp.scissor r] }

/-- `quad_gl.draw_mode(m)`. -/
def QuadGl.draw_mode (gl : QuadGl) (m : DrawMode) : QuadGl :=
  { gl with ops := gl.ops ++ [GlOp.drawMode m] }

/-- `quad_gl.geometry(vertices, indices)`: submit the buffers. -/
def QuadGl.geometry (gl : QuadGl) (vs : List Nat) (ids : List Nat) :
    QuadGl :=
  { gl with ops := gl.ops ++ [GlOp.geometry vs ids] }

/-- The loop body of src/lib.rs:231-244 applied to each draw command in
order.  The `HashMap` index `ctx.megaui_textures[&texture]` panics on a
missing key; this is modelled by returning `none`. -/
def replay (ctx : UiContext) : List DrawList → QuadGl → Option QuadGl
  | [], gl => some gl
  | dc :: rest, gl =>
    let glT : Option QuadGl :=
      match dc.texture with
      | some h =>
        match lookupTexture ctx.megaui_textures h with
        | some t => some (gl.texture (some t))
        | none => none
      | none => some (gl.texture (some ctx.font_texture))
    match glT with
    | none => none
    | some gl1 =>
      let gl2 := gl1.scissor
        (dc.clipping_zone.map (fun r => (r.x, r.y, r.w, r.h)))
      let gl3 := gl2.draw_mode DrawMode.Triangles
      let gl4 := gl3.geometry dc.vertices dc.indices
      replay ctx rest gl4

/-- `draw_megaui` (src/lib.rs:215-250): clears the per-frame input flag,
clears and repopulates `ui_draw_list` via `Ui::render` (the swap dance makes
the rendered list local during the loop and puts it back afterwards), binds
the font texture, replays every draw command in order, unbinds the texture,
and advances the UI library's frame.  `none` models the panic on a missing
registry entry. -/
def draw_megaui (ctx : UiContext) (gl : QuadGl) :
    Option (UiContext × QuadGl) :=
  let ctx1 : UiContext := { ctx with input_processed_this_frame := false }
  let rendered := ctx1.ui.render []
  let gl1 := gl.texture (some ctx1.font_texture)
  match replay ctx1 rendered gl1 with
  | none => none
  | some gl2 =>
    let gl3 := gl2.texture none
    some ({ ctx1 with ui := ctx1.ui.new_frame, ui_draw_list := rendered },
      gl3)

/-- The sequence of events `process_input` forwards to the UI library on a
frame's first (unguarded) pass, as a pure function of the host input. -/
def forwardedEvents (inp : HostInput) : List UiEvent :=
  [UiEvent.mouseMove inp.mousePos.1 inp.mousePos.2]
  ++ (if inp.lmbPressed then
        [UiEvent.mouseDown inp.mousePos.1 inp.mousePos.2] else [])
  ++ (if inp.lmbReleased then
        [UiEvent.mouseUp inp.mousePos.1 inp.mousePos.2] else [])
  ++ (if inp.ctrlHeld then [] else
        inp.chars.map (fun c => UiEvent.charEvent c false false))
  ++ ((keyPairs.filter
        (fun p => inp.isKeyPressed p.1 || inp.isKeyDown p.1)).map
        (fun p => UiEvent.keyDownEvent p.2 inp.shiftHeld inp.ctrlHeld))
  ++ (if inp.ctrlSignal then
        [UiEvent.keyDownEvent UiKey.Control inp.shiftHeld inp.ctrlHeld]
      else [])
  ++ [UiEvent.mouseWheel inp.wheel.1 (-inp.wheel.2)]

theorem Ui.push_push (ui : Ui) (a b : List UiEvent) :
    (ui.push a).push b = ui.push (a ++ b) := by
  simp [Ui.push, List.append_assoc]

theorem Ui.push_nil (ui : Ui) : ui.push [] = ui := by
  simp [Ui.push]

theorem char_fold_push (chars : List Char) (ctrl : Bool) (ui : Ui) :
    chars.foldl
      (fun u c => if ctrl = false then u.char_event c false false else u)
      ui =
    ui.push (if ctrl then [] else
      chars.map (fun c => UiEvent.charEvent c false false)) := by
  induction chars generalizing ui with
  | nil => cases ctrl <;> simp [Ui.push_nil]
  | cons c cs ih =>
    cases ctrl <;>
      simp_all [Ui.char_event, Ui.push_push, Ui.push_nil]

theorem key_fold_push (inp : HostInput) (shift ctrl : Bool)
    (ps : List (Key × UiKey)) (ui : Ui) :
    ps.foldl
      (fun u p =>
        if inp.isKeyPressed p.1 || inp.isKeyDown p.1 then
          u.key_down p.2 shift ctrl
        else u) ui =
    ui.push ((ps.filter
      (fun p => inp.isKeyPressed p.1 || inp.isKeyDown p.1)).map
      (fun p => UiEvent.keyDownEvent p.2 shift ctrl)) := by
  induction ps generalizing ui with
  | nil => simp [Ui.push_nil]
  | cons p ps ih =>
    by_cases h : (inp.isKeyPressed p.1 || inp.isKeyDown p.1) = true
    · simp_all [List.filter_cons, Ui.key_down, Ui.push_push]
    · simp_all [List.filter_cons]

/-- On an unguarded pass, `process_input` consumes the character queue,
appends exactly `forwardedEvents inp` to the UI event trace, leaves the other
UI fields and context fields unchanged, and sets the per-frame flag. -/
theorem process_input_spec (inp : HostInput) (ctx : UiContext)
    (h : ctx.input_processed_this_frame = false) :
    process_input inp ctx =
      ({ inp with chars := [] },
       { ctx with ui := ctx.ui.push (forwardedEvents inp),
                  input_processed_this_frame := true }) := by
  unfold process_input
  rw [h]
  simp only [Bool.false_eq_true, if_false]
  rw [char_fold_push, key_fold_push]
  simp only [forwardedEvents, Ui.mouse_move, Ui.mouse_down, Ui.mouse_up,
    Ui.key_down, Ui.mouse_wheel]
  by_cases hp : inp.lmbPressed <;>
    by_cases hr : inp.lmbReleased <;>
      by_cases hc : inp.ctrlSignal <;>
        simp [hp, hr, hc, Ui.push_push, Ui.push_nil, List.append_assoc]

/-- When the per-frame flag is set, `process_input` is the identity. -/
theorem process_input_guarded (inp : HostInput) (ctx : UiContext)
    (h : ctx.input_processed_this_frame = true) :
    process_input inp ctx = (inp, ctx) := by
  unfold process_input
  rw [h]
  simp

/-- Is this event a scroll-wheel forwarding? -/
def UiEvent.isWheel : UiEvent → Bool
  | UiEvent.mouseWheel _ _ => true
  | _ => false

/-- Is this event a typed-character forwarding? -/
def UiEvent.isChar : UiEvent → Bool
  | UiEvent.charEvent _ _ _ => true
  | _ => false

theorem forwarded_wheel (inp : HostInput) :
    (forwardedEvents inp).filter UiEvent.isWheel =
      [UiEvent.mouseWheel inp.wheel.1 (-inp.wheel.2)] := by
  unfold forwardedEvents
  simp only [List.filter_append, List.filter_map]
  cases inp.lmbPressed <;> cases inp.lmbReleased <;>
    cases hch : inp.ctrlHeld <;> cases inp.ctrlSignal <;>
      simp [UiEvent.isWheel, List.filter_eq_nil_iff, Function.comp]

theorem forwarded_chars (inp : HostInput) :
    (forwardedEvents inp).filter UiEvent.isChar =
      (if inp.ctrlHeld then [] else
        inp.chars.map (fun c => UiEvent.charEvent c false false)) := by
  unfold forwardedEvents
  simp only [List.filter_append, List.filter_map]
  cases inp.lmbPressed <;> cases inp.lmbReleased <;>
    cases hch : inp.ctrlHeld <;> cases inp.ctrlSignal <;>
      simp [UiEvent.isChar, List.filter_eq_nil_iff, Function.comp,
        List.filter_eq_self]

/-- A sequence of `draw_window` calls within one frame: each element carries
the window's position, size, and the draw commands its callback contributes. -/
def drawWindows :
    List ((Int × Int) × (Int × Int) × List DrawList) →
    HostInput × UiContext → HostInput × UiContext
  | [], s => s
  | w :: ws, s => drawWindows ws (draw_window w.1 w.2.1 w.2.2 s.1 s.2)

theorem draw_window_guarded_events (pos size : Int × Int)
    (contributed : List DrawList) (inp : HostInput) (ctx : UiContext)
    (h : ctx.input_processed_this_frame = true) :
    (draw_window pos size contributed inp ctx).1 = inp ∧
    (draw_window pos size contributed inp ctx).2.ui.events =
      ctx.ui.events ∧
    (draw_window pos size contributed inp ctx).2.input_processed_this_frame
      = true := by
  unfold draw_window
  rw [process_input_guarded inp ctx h]
  exact ⟨rfl, rfl, h⟩

theorem drawWindows_guarded (ws : List ((Int × Int) × (Int × Int) ×
    List DrawList)) (inp : HostInput) (ctx : UiContext)
    (h : ctx.input_processed_this_frame = true) :
    (drawWindows ws (inp, ctx)).2.ui.events = ctx.ui.events ∧
    (drawWindows ws (inp, ctx)).2.input_processed_this_frame = true := by
  induction ws generalizing inp ctx with
  | nil => exact ⟨rfl, h⟩
  | cons w ws ih =>
    have hg := draw_window_guarded_events w.1 w.2.1 w.2.2 inp ctx h
    have step : drawWindows (w :: ws) (inp, ctx) =
        drawWindows ws (draw_window w.1 w.2.1 w.2.2 inp ctx) := rfl
    rw [step]
    have := ih (draw_window w.1 w.2.1 w.2.2 inp ctx).1
      (draw_window w.1 w.2.1 w.2.2 inp ctx).2 hg.2.2
    rw [hg.2.1] at this
    exact this

/-- `draw_megaui` always clears the per-frame input flag on its (non-panic)
result. -/
theorem draw_megaui_clears_flag (ctx : UiContext) (gl : QuadGl)
    (ctx2 : UiContext) (gl2 : QuadGl)
    (h : draw_megaui ctx gl = some (ctx2, gl2)) :
    ctx2.input_processed_this_frame = false := by
  unfold draw_megaui at h
  simp only [Ui.render, List.nil_append] at h
  split at h
  · exact Option.noConfusion h
  · simp only [Option.some_inj, Prod.mk.injEq] at h
    rw [← h.1]

theorem draw_window_first (pos size : Int × Int)
    (contributed : List DrawList) (inp : HostInput) (ctx : UiContext)
    (h : ctx.input_processed_this_frame = false) :
    (draw_window pos size contributed inp ctx).2.ui.events =
        ctx.ui.events ++ forwardedEvents inp ∧
    (draw_window pos size contributed inp ctx).2.input_processed_this_frame
        = true := by
  unfold draw_window
  rw [process_input_spec inp ctx h]
  exact ⟨rfl, rfl⟩

/-- C1: within one frame, for any sequence of `draw_window` calls of length
`N ≥ 1` starting with a clear per-frame flag, the forwarding side effects on
the UI event trace happen exactly once, on the first call (the trace after
the whole sequence is the trace before plus one copy of `forwardedEvents`);
the flag is set afterwards, and any successful `draw_megaui` clears it
again. -/
theorem input_forwarding_once_per_frame
    (w : (Int × Int) × (Int × Int) × List DrawList)
    (ws : List ((Int × Int) × (Int × Int) × List DrawList))
    (inp : HostInput) (ctx : UiContext)
    (h : ctx.input_processed_this_frame = false) :
    (drawWindows (w :: ws) (inp, ctx)).2.ui.events =
        ctx.ui.events ++ forwardedEvents inp
    ∧ (drawWindows (w :: ws) (inp, ctx)).2.input_processed_this_frame = true
    ∧ ∀ gl ctx2 gl2,
        draw_megaui (drawWindows (w :: ws) (inp, ctx)).2 gl =
          some (ctx2, gl2) →
        ctx2.input_processed_this_frame = false := by
  obtain ⟨h1, h2⟩ := draw_window_first w.1 w.2.1 w.2.2 inp ctx h
  have step : drawWindows (w :: ws) (inp, ctx) =
      drawWindows ws (draw_window w.1 w.2.1 w.2.2 inp ctx) := rfl
  have hpair : draw_window w.1 w.2.1 w.2.2 inp ctx =
      ((draw_window w.1 w.2.1 w.2.2 inp ctx).1,
       (draw_window w.1 w.2.1 w.2.2 inp ctx).2) := rfl
  obtain ⟨hev, hflag⟩ := drawWindows_guarded ws
    (draw_window w.1 w.2.1 w.2.2 inp ctx).1
    (draw_window w.1 w.2.1 w.2.2 inp ctx).2 h2
  rw [← hpair] at hev hflag
  rw [step, hev, h1]
  refine ⟨rfl, hflag, ?_⟩
  intro gl ctx2 gl2 hdm
  exact draw_megaui_clears_flag _ gl ctx2 gl2 hdm

/-- C4: the frame's single forwarding pass emits exactly one scroll-wheel
event to the UI library, carrying the host delta with the vertical axis
inverted: host `(x, y)` is forwarded as `(x, -y)`. -/
theorem wheel_axis_inverted (inp : HostInput) (ctx : UiContext)
    (h : ctx.input_processed_this_frame = false) :
    ((process_input inp ctx).2.ui.events.filter UiEvent.isWheel) =
      ctx.ui.events.filter UiEvent.isWheel ++
        [UiEvent.mouseWheel inp.wheel.1 (-inp.wheel.2)] := by
  rw [process_input_spec inp ctx h]
  simp only [Ui.push, List.filter_append, forwarded_wheel]

/-- C5: the forwarding pass consumes the whole typed-character queue, and
forwards each drained character as a character-typed event exactly when the
control modifier is not held (under Ctrl the queue is still consumed but no
character events are emitted). -/
theorem chars_drained_forwarded_unless_ctrl (inp : HostInput)
    (ctx : UiContext) (h : ctx.input_processed_this_frame = false) :
    (process_input inp ctx).1.chars = [] ∧
    ((process_input inp ctx).2.ui.events.filter UiEvent.isChar) =
      ctx.ui.events.filter UiEvent.isChar ++
        (if inp.ctrlHeld then [] else
          inp.chars.map (fun c => UiEvent.charEvent c false false)) := by
  rw [process_input_spec inp ctx h]
  refine ⟨rfl, ?_⟩
  simp only [Ui.push, List.filter_append, forwarded_chars]

theorem keyPairs_snd_inj :
    ∀ p ∈ keyPairs, ∀ q ∈ keyPairs, p.2 = q.2 → p = q := by decide

theorem keyPairs_snd_ne_control :
    ∀ p ∈ keyPairs, p.2 ≠ UiKey.Control := by decide

theorem keyDown_mem_forwarded (inp : HostInput) (k : UiKey) :
    (UiEvent.keyDownEvent k inp.shiftHeld inp.ctrlHeld ∈ forwardedEvents inp)
    ↔ ((∃ p, p ∈ keyPairs ∧
          (inp.isKeyPressed p.1 || inp.isKeyDown p.1) = true ∧ p.2 = k)
       ∨ (inp.ctrlSignal = true ∧ k = UiKey.Control)) := by
  unfold forwardedEvents
  cases hp : inp.lmbPressed <;> cases hr : inp.lmbReleased <;>
    cases hch : inp.ctrlHeld <;> cases hcs : inp.ctrlSignal <;>
      simp [List.mem_append, List.mem_filter, List.mem_map]

/-- C6: on the forwarding pass, for each allow-listed key pair a key-down
event tagged with the current shift/control state is forwarded iff the host
key is freshly pressed or held; a synthetic Control key-down is forwarded iff
either control key is held or freshly pressed, independent of the
allow-list. -/
theorem allowlist_key_forwarding (inp : HostInput) (ctx : UiContext)
    (h : ctx.input_processed_this_frame = false) :
    (process_input inp ctx).2.ui.events =
        ctx.ui.events ++ forwardedEvents inp
    ∧ (∀ p ∈ keyPairs,
        (UiEvent.keyDownEvent p.2 inp.shiftHeld inp.ctrlHeld ∈
            forwardedEvents inp
         ↔ (inp.isKeyPressed p.1 || inp.isKeyDown p.1) = true))
    ∧ (UiEvent.keyDownEvent UiKey.Control inp.shiftHeld inp.ctrlHeld ∈
          forwardedEvents inp
       ↔ inp.ctrlSignal = true) := by
  refine ⟨?_, ?_, ?_⟩
  · rw [process_input_spec inp ctx h]; rfl
  · intro p hp
    rw [keyDown_mem_forwarded]
    constructor
    · rintro (⟨q, hq, hcond, hqk⟩ | ⟨hcs, hk⟩)
      · rw [← keyPairs_snd_inj q hq p hp hqk]
        exact hcond
      · exact absurd hk (keyPairs_snd_ne_control p hp)
    · intro hc
      exact Or.inl ⟨p, hp, hc, rfl⟩
  · rw [keyDown_mem_forwarded]
    constructor
    · rintro (⟨q, hq, hcond, hqk⟩ | ⟨hcs, _⟩)
      · exact absurd hqk (keyPairs_snd_ne_control q hq)
      · exact hcs
    · intro hc
      exact Or.inr ⟨hc, rfl⟩

/-- The renderer calls the loop body of src/lib.rs:231-244 issues for one
draw command: texture bind (registry entry, or font atlas when the command
carries no handle), scissor, draw mode, geometry; `none` when the command
references an unregistered handle (the `HashMap` index panics). -/
def commandOps (regs : List (Nat × Texture2D)) (font : Texture2D)
    (dc : DrawList) : Option (List GlOp) :=
  match dc.texture with
  | some h =>
    match lookupTexture regs h with
    | some t => some [GlOp.texture (some t),
        GlOp.scissor (dc.clipping_zone.map (fun r => (r.x, r.y, r.w, r.h))),
        GlOp.drawMode DrawMode.Triangles,
        GlOp.geometry dc.vertices dc.indices]
    | none => none
  | none => some [GlOp.texture (some font),
      GlOp.scissor (dc.clipping_zone.map (fun r => (r.x, r.y, r.w, r.h))),
      GlOp.drawMode DrawMode.Triangles,
      GlOp.geometry dc.vertices dc.indices]

theorem replay_ops (ctx : UiContext) (l : List DrawList) (gl : QuadGl)
    (h : ∀ dc ∈ l, (commandOps ctx.megaui_textures ctx.font_texture dc).isSome) :
    ∃ gl2, replay ctx l gl = some gl2 ∧
      gl2.ops = gl.ops ++
        l.flatMap (fun dc => (commandOps ctx.megaui_textures ctx.font_texture dc).getD []) := by
  induction l generalizing gl with
  | nil => exact ⟨gl, rfl, by simp⟩
  | cons dc rest ih =>
    have hdc := h dc (List.mem_cons_self dc rest)
    have hrest : ∀ d ∈ rest, (commandOps ctx.megaui_textures ctx.font_texture d).isSome :=
      fun d hd => h d (List.mem_cons_of_mem dc hd)
    cases htex : dc.texture with
    | some hd =>
      cases hlk : lookupTexture ctx.megaui_textures hd with
      | none => simp [commandOps, htex, hlk] at hdc
      | some t =>
        obtain ⟨gl2, hrep, hops⟩ := ih
          ((((gl.texture (some t)).scissor
            (dc.clipping_zone.map (fun r => (r.x, r.y, r.w, r.h)))).draw_mode
              DrawMode.Triangles).geometry dc.vertices dc.indices) hrest
        refine ⟨gl2, ?_, ?_⟩
        · simp only [replay, htex, hlk]
          exact hrep
        · rw [hops]
          simp [commandOps, htex, hlk, QuadGl.texture, QuadGl.scissor,
            QuadGl.draw_mode, QuadGl.geometry, List.append_assoc]
    | none =>
      obtain ⟨gl2, hrep, hops⟩ := ih
        ((((gl.texture (some ctx.font_texture)).scissor
          (dc.clipping_zone.map (fun r => (r.x, r.y, r.w, r.h)))).draw_mode
            DrawMode.Triangles).geometry dc.vertices dc.indices) hrest
      refine ⟨gl2, ?_, ?_⟩
      · simp only [replay, htex]
        exact hrep
      · rw [hops]
        simp [commandOps, htex, QuadGl.texture, QuadGl.scissor,
          QuadGl.draw_mode, QuadGl.geometry, List.append_assoc]

theorem replay_missing (ctx : UiContext) (l : List DrawList) (dc : DrawList)
    (hmem : dc ∈ l) (hfail : commandOps ctx.megaui_textures ctx.font_texture dc = none) :
    ∀ gl, replay ctx l gl = none := by
  induction l with
  | nil => cases hmem
  | cons a rest ih =>
    intro gl
    rcases List.mem_cons.mp hmem with heq | hmem'
    · subst heq
      cases htex : dc.texture with
      | none => simp [commandOps, htex] at hfail
      | some hd =>
        cases hlk : lookupTexture ctx.megaui_textures hd with
        | some t => simp [commandOps, htex, hlk] at hfail
        | none => simp only [replay, htex, hlk]
    · cases htex : a.texture with
      | none =>
        simp only [replay, htex]
        exact ih hmem' _
      | some hd =>
        cases hlk : lookupTexture ctx.megaui_textures hd with
        | none => simp only [replay, htex, hlk]
        | some t =>
          simp only [replay, htex, hlk]
          exact ih hmem' _

theorem draw_megaui_eq (ctx : UiContext) (gl : QuadGl) :
    draw_megaui ctx gl =
      match replay { ctx with input_processed_this_frame := false }
          ctx.ui.pending (gl.texture (some ctx.font_texture)) with
      | none => none
      | some gl2 =>
        some ({ ctx with
                ui := ctx.ui.new_frame
                ui_draw_list := ctx.ui.pending
                input_processed_this_frame := false },
          gl2.texture none) := rfl

/-- C2: a draw command whose texture handle has no registry entry makes the
flush fail with the fatal lookup failure (the whole replay aborts, modelled
by `none`); the loop body never substitutes the font atlas or any default
for the missing entry (`commandOps` is `none`, not a font-texture bind). -/
theorem unregistered_handle_fatal (ctx : UiContext) (gl : QuadGl)
    (dc : DrawList) (h0 : Nat) (hmem : dc ∈ ctx.ui.pending)
    (htex : dc.texture = some h0)
    (hmiss : lookupTexture ctx.megaui_textures h0 = none) :
    draw_megaui ctx gl = none ∧ commandOps ctx.megaui_textures ctx.font_texture dc = none := by
  have hfail : commandOps ctx.megaui_textures ctx.font_texture dc = none := by
    simp [commandOps, htex, hmiss]
  refine ⟨?_, hfail⟩
  rw [draw_megaui_eq]
  rw [replay_missing { ctx with input_processed_this_frame := false }
    ctx.ui.pending dc hmem hfail (gl.texture (some ctx.font_texture))]

/-- C3: when every referenced handle is registered, the flush replays the
frame's draw commands in exactly the order the UI library emitted them: it
first binds the font atlas, then for each command in order binds the
command's registry texture (or the font atlas when no handle is present),
sets the scissor from the command's clip rectangle, sets triangle draw mode,
and submits the command's buffers; in particular after
`set_megaui_texture h t` a command referencing `h` produces a bind of
exactly `t`. -/
theorem commands_replayed_in_order (ctx : UiContext) (gl : QuadGl)
    (h : ∀ dc ∈ ctx.ui.pending, (commandOps ctx.megaui_textures ctx.font_texture dc).isSome) :
    (∃ ctx2 gl2, draw_megaui ctx gl = some (ctx2, gl2) ∧
      gl2.ops = gl.ops ++ [GlOp.texture (some ctx.font_texture)] ++
        ctx.ui.pending.flatMap (fun dc => (commandOps ctx.megaui_textures ctx.font_texture dc).getD []) ++
        [GlOp.texture none]) ∧
    (∀ h0 t dc, dc.texture = some h0 →
      commandOps (set_megaui_texture h0 t ctx).megaui_textures
          (set_megaui_texture h0 t ctx).font_texture dc =
        some [GlOp.texture (some t),
          GlOp.scissor (dc.clipping_zone.map (fun r => (r.x, r.y, r.w, r.h))),
          GlOp.drawMode DrawMode.Triangles,
          GlOp.geometry dc.vertices dc.indices]) := by
  constructor
  · obtain ⟨gl2, hrep, hops⟩ := replay_ops
      { ctx with input_processed_this_frame := false } ctx.ui.pending
      (gl.texture (some ctx.font_texture)) h
    refine ⟨{ ctx with
        ui := ctx.ui.new_frame
        ui_draw_list := ctx.ui.pending
        input_processed_this_frame := false }, gl2.texture none, ?_, ?_⟩
    · rw [draw_megaui_eq, hrep]
    · simp [QuadGl.texture, hops, List.append_assoc]
  · intro h0 t dc htex
    simp [commandOps, set_megaui_texture, lookupTexture, htex]

theorem draw_megaui_result_pending (ctx : UiContext) (gl : QuadGl)
    (ctx2 : UiContext) (gl2 : QuadGl)
    (h : draw_megaui ctx gl = some (ctx2, gl2)) :
    ctx2.ui.pending = [] := by
  rw [draw_megaui_eq] at h
  split at h
  · exact Option.noConfusion h
  · simp only [Option.some_inj, Prod.mk.injEq] at h
    rw [← h.1]
    simp [Ui.new_frame]

/-- C7: after a flush, a second flush with no widget declarations in between
replays no stale draw commands: its only renderer calls are the initial
font-atlas bind and the final unbind (no geometry submission), and the
repopulated draw-list storage is empty. -/
theorem second_flush_replays_nothing (ctx : UiContext) (gl : QuadGl)
    (ctx1 : UiContext) (gl1 : QuadGl)
    (h : draw_megaui ctx gl = some (ctx1, gl1)) :
    ∃ ctx2 gl2, draw_megaui ctx1 gl1 = some (ctx2, gl2) ∧
      gl2.ops = gl1.ops ++
        [GlOp.texture (some ctx1.font_texture), GlOp.texture none] ∧
      ctx2.ui_draw_list = [] := by
  have hp : ctx1.ui.pending = [] :=
    draw_megaui_result_pending ctx gl ctx1 gl1 h
  refine ⟨{ ctx1 with
      ui := ctx1.ui.new_frame
      ui_draw_list := ctx1.ui.pending
      input_processed_this_frame := false },
    (gl1.texture (some ctx1.font_texture)).texture none, ?_, ?_, ?_⟩
  · rw [draw_megaui_eq, hp]
    simp [replay]
  · simp [QuadGl.texture, List.append_assoc]
  · exact hp

/-- C8: after a successful flush the renderer's active texture binding is
restored to the default unbound state, whatever was replayed. -/
theorem texture_unbound_after_flush (ctx : UiContext) (gl : QuadGl)
    (ctx2 : UiContext) (gl2 : QuadGl)
    (h : draw_megaui ctx gl = some (ctx2, gl2)) :
    gl2.curTexture = none := by
  rw [draw_megaui_eq] at h
  split at h
  · exact Option.noConfusion h
  · simp only [Option.some_inj, Prod.mk.injEq] at h
    rw [← h.2]
    simp [QuadGl.texture]

/-- C9: the pointer-over and pointer-captured queries return exactly the UI
library's own hit-test results; the query position is the host pointer
position, which is also the position the frame's forwarding pass sends as
its pointer-move event; on the spec's example (window rectangle
(10,10)-(110,110)) the pointer at (50,50) is over the UI and the pointer at
(200,200) is not. -/
theorem pointer_queries_delegate (ctx : UiContext)
    (inp inp1 inp2 : HostInput)
    (hw : ctx.ui.windows = [⟨10, 10, 100, 100⟩])
    (h1 : inp1.mousePos = (50, 50)) (h2 : inp2.mousePos = (200, 200)) :
    mouse_over_ui inp ctx =
        ctx.ui.is_mouse_over inp.mousePos.1 inp.mousePos.2
    ∧ mouse_captured ctx = ctx.ui.is_mouse_captured
    ∧ (forwardedEvents inp).head? =
        some (UiEvent.mouseMove inp.mousePos.1 inp.mousePos.2)
    ∧ mouse_over_ui inp1 ctx = true
    ∧ mouse_over_ui inp2 ctx = false := by
  refine ⟨rfl, rfl, rfl, ?_, ?_⟩
  · simp [mouse_over_ui, Ui.is_mouse_over, hw, h1, Rect.contains]
  · simp [mouse_over_ui, Ui.is_mouse_over, hw, h2, Rect.contains]

/-- C10: of the public entry points, only `draw_window` runs the input
forwarder: `set_ui_style` and `set_megaui_texture` leave the UI event trace,
the frame's pending draw lists, the stored draw-list buffer and the
per-frame flag unchanged (the two pointer queries are pure reads returning a
`Bool`), and `set_megaui_texture` changes only the registry entry for its
own handle, leaving every other entry's lookup unchanged. -/
theorem non_widget_calls_no_forwarding (style : Nat) (h0 : Nat)
    (t : Texture2D) (ctx : UiContext) :
    ((set_ui_style style ctx).ui.events = ctx.ui.events
      ∧ (set_ui_style style ctx).ui.pending = ctx.ui.pending
      ∧ (set_ui_style style ctx).ui_draw_list = ctx.ui_draw_list
      ∧ (set_ui_style style ctx).input_processed_this_frame =
          ctx.input_processed_this_frame
      ∧ (set_ui_style style ctx).megaui_textures = ctx.megaui_textures)
    ∧ ((set_megaui_texture h0 t ctx).ui = ctx.ui
      ∧ (set_megaui_texture h0 t ctx).ui_draw_list = ctx.ui_draw_list
      ∧ (set_megaui_texture h0 t ctx).input_processed_this_frame =
          ctx.input_processed_this_frame)
    ∧ lookupTexture (set_megaui_texture h0 t ctx).megaui_textures h0 =
        some t
    ∧ (∀ h1, h1 ≠ h0 →
        lookupTexture (set_megaui_texture h0 t ctx).megaui_textures h1 =
          lookupTexture ctx.megaui_textures h1) := by
  refine ⟨⟨rfl, rfl, rfl, rfl, rfl⟩, ⟨rfl, rfl, rfl⟩, ?_, ?_⟩
  · simp [set_megaui_texture, lookupTexture]
  · intro h1 hne
    simp only [set_megaui_texture, lookupTexture]
    rw [if_neg (Ne.symm hne)]

/-! Concrete fixtures for the witness theorems. -/

/-- The font-atlas texture fixture. -/
def texFont : Texture2D := ⟨0⟩

/-- A registered user texture fixture. -/
def texA : Texture2D := ⟨1⟩

/-- A draw command referencing texture handle 7, with a clip rectangle. -/
def dcA : DrawList :=
  { texture := some 7, clipping_zone := some ⟨1, 2, 3, 4⟩,
    vertices := [0, 1, 2], indices := [0, 1, 2] }

/-- A draw command with no texture handle and no clip rectangle. -/
def dcB : DrawList :=
  { texture := none, clipping_zone := none,
    vertices := [3, 4, 5], indices := [0, 1, 2] }

/-- A UI fixture with two pending draw commands. -/
def uiA : Ui :=
  { style := 0, events := [], windows := [], pending := [dcA, dcB],
    captured := false }

/-- A context fixture: handle 7 registered, fresh frame. -/
def ctxA : UiContext :=
  { ui := uiA, ui_draw_list := [], font_texture := texFont,
    megaui_textures := [(7, texA)], input_processed_this_frame := false }

/-- A context fixture whose pending command references handle 7 while the
registry is empty. -/
def ctxB : UiContext := { ctxA with megaui_textures := [] }

/-- A host-input fixture: left button pressed, `A` held, two typed
characters, wheel delta (0, +5). -/
def inpA : HostInput :=
  { mousePos := (3, 4), lmbPressed := true, lmbReleased := false,
    isKeyDown := fun k => match k with | Key.A => true | _ => false,
    isKeyPressed := fun _ => false,
    chars := ['h', 'i'], wheel := (0, 5) }

/-- The host-input fixture with the pointer at (50, 50). -/
def inpB : HostInput := { inpA with mousePos := (50, 50) }

/-- The host-input fixture with the pointer at (200, 200). -/
def inpC : HostInput := { inpA with mousePos := (200, 200) }

/-- A context fixture with one window occupying (10,10)-(110,110). -/
def ctxW : UiContext :=
  { ctxA with
    ui := { uiA with windows := [⟨10, 10, 100, 100⟩], pending := [] } }

/-- An initial renderer state. -/
def glA : QuadGl := { ops := [], curTexture := none }

/-- A first window-declaration fixture. -/
def wA : (Int × Int) × (Int × Int) × List DrawList :=
  ((0, 0), (100, 100), [dcA])

/-- A second window-declaration fixture. -/
def wB : (Int × Int) × (Int × Int) × List DrawList :=
  ((5, 5), (20, 20), [dcB])

/-- The context produced by flushing `ctxA`. -/
def ctxC : UiContext :=
  { ctxA with ui := { uiA with pending := [] }, ui_draw_list := [dcA, dcB] }

/-- The renderer state produced by flushing `ctxA` from `glA`. -/
def glC : QuadGl :=
  { ops := [GlOp.texture (some texFont),
      GlOp.texture (some texA), GlOp.scissor (some (1, 2, 3, 4)),
      GlOp.drawMode DrawMode.Triangles, GlOp.geometry [0, 1, 2] [0, 1, 2],
      GlOp.texture (some texFont), GlOp.scissor none,
      GlOp.drawMode DrawMode.Triangles, GlOp.geometry [3, 4, 5] [0, 1, 2],
      GlOp.texture none],
    curTexture := none }

theorem input_forwarding_once_per_frame_witness :
    ctxA.input_processed_this_frame = false ∧
    ((drawWindows [wA, wB] (inpA, ctxA)).2.ui.events =
        ctxA.ui.events ++ forwardedEvents inpA
      ∧ (drawWindows [wA, wB] (inpA, ctxA)).2.input_processed_this_frame =
          true
      ∧ ∀ gl ctx2 gl2,
          draw_megaui (drawWindows [wA, wB] (inpA, ctxA)).2 gl =
            some (ctx2, gl2) →
          ctx2.input_processed_this_frame = false) :=
  ⟨rfl, input_forwarding_once_per_frame wA [wB] inpA ctxA rfl⟩

theorem unregistered_handle_fatal_witness :
    dcA ∈ ctxB.ui.pending ∧ dcA.texture = some 7 ∧
    lookupTexture ctxB.megaui_textures 7 = none ∧
    (draw_megaui ctxB glA = none ∧
      commandOps ctxB.megaui_textures ctxB.font_texture dcA = none) :=
  ⟨by decide, rfl, rfl,
    unregistered_handle_fatal ctxB glA dcA 7 (by decide) rfl rfl⟩

theorem commands_replayed_in_order_witness :
    (∀ dc ∈ ctxA.ui.pending,
      (commandOps ctxA.megaui_textures ctxA.font_texture dc).isSome) ∧
    ((∃ ctx2 gl2, draw_megaui ctxA glA = some (ctx2, gl2) ∧
        gl2.ops = glA.ops ++ [GlOp.texture (some ctxA.font_texture)] ++
          ctxA.ui.pending.flatMap
            (fun dc =>
              (commandOps ctxA.megaui_textures ctxA.font_texture dc).getD
                []) ++
          [GlOp.texture none]) ∧
      (∀ h0 t dc, dc.texture = some h0 →
        commandOps (set_megaui_texture h0 t ctxA).megaui_textures
            (set_megaui_texture h0 t ctxA).font_texture dc =
          some [GlOp.texture (some t),
            GlOp.scissor
              (dc.clipping_zone.map (fun r => (r.x, r.y, r.w, r.h))),
            GlOp.drawMode DrawMode.Triangles,
            GlOp.geometry dc.vertices dc.indices])) :=
  ⟨by decide, commands_replayed_in_order ctxA glA (by decide)⟩

theorem wheel_axis_inverted_witness :
    ctxA.input_processed_this_frame = false ∧
    ((process_input inpA ctxA).2.ui.events.filter UiEvent.isWheel =
      ctxA.ui.events.filter UiEvent.isWheel ++
        [UiEvent.mouseWheel 0 (-5)]) :=
  ⟨rfl, wheel_axis_inverted inpA ctxA rfl⟩

theorem chars_drained_witness :
    ctxA.input_processed_this_frame = false ∧
    ((process_input inpA ctxA).1.chars = [] ∧
     (process_input inpA ctxA).2.ui.events.filter UiEvent.isChar =
       ctxA.ui.events.filter UiEvent.isChar ++
         (if inpA.ctrlHeld then [] else
           inpA.chars.map (fun c => UiEvent.charEvent c false false))) :=
  ⟨rfl, chars_drained_forwarded_unless_ctrl inpA ctxA rfl⟩

theorem allowlist_key_forwarding_witness :
    ctxA.input_processed_this_frame = false ∧
    ((process_input inpA ctxA).2.ui.events =
        ctxA.ui.events ++ forwardedEvents inpA
      ∧ (∀ p ∈ keyPairs,
          (UiEvent.keyDownEvent p.2 inpA.shiftHeld inpA.ctrlHeld ∈
              forwardedEvents inpA
           ↔ (inpA.isKeyPressed p.1 || inpA.isKeyDown p.1) = true))
      ∧ (UiEvent.keyDownEvent UiKey.Control inpA.shiftHeld inpA.ctrlHeld ∈
            forwardedEvents inpA
         ↔ inpA.ctrlSignal = true)) :=
  ⟨rfl, allowlist_key_forwarding inpA ctxA rfl⟩

theorem second_flush_replays_nothing_witness :
    draw_megaui ctxA glA = some (ctxC, glC) ∧
    (∃ ctx2 gl2, draw_megaui ctxC glC = some (ctx2, gl2) ∧
      gl2.ops = glC.ops ++
        [GlOp.texture (some ctxC.font_texture), GlOp.texture none] ∧
      ctx2.ui_draw_list = []) :=
  ⟨by decide, second_flush_replays_nothing ctxA glA ctxC glC (by decide)⟩

theorem texture_unbound_after_flush_witness :
    draw_megaui ctxA glA = some (ctxC, glC) ∧ glC.curTexture = none :=
  ⟨by decide, texture_unbound_after_flush ctxA glA ctxC glC (by decide)⟩

theorem pointer_queries_delegate_witness :
    ctxW.ui.windows = [⟨10, 10, 100, 100⟩] ∧ inpB.mousePos = (50, 50) ∧
    inpC.mousePos = (200, 200) ∧
    (mouse_over_ui inpA ctxW =
        ctxW.ui.is_mouse_over inpA.mousePos.1 inpA.mousePos.2
      ∧ mouse_captured ctxW = ctxW.ui.is_mouse_captured
      ∧ (forwardedEvents inpA).head? =
          some (UiEvent.mouseMove inpA.mousePos.1 inpA.mousePos.2)
      ∧ mouse_over_ui inpB ctxW = true
      ∧ mouse_over_ui inpC ctxW = false) :=
  ⟨rfl, rfl, rfl, pointer_queries_delegate ctxW inpA inpB inpC rfl rfl rfl⟩

theorem non_widget_calls_no_forwarding_witness :
    ((set_ui_style 3 ctxA).ui.events = ctxA.ui.events
      ∧ (set_ui_style 3 ctxA).ui.pending = ctxA.ui.pending
      ∧ (set_ui_style 3 ctxA).ui_draw_list = ctxA.ui_draw_list
      ∧ (set_ui_style 3 ctxA).input_processed_this_frame =
          ctxA.input_processed_this_frame
      ∧ (set_ui_style 3 ctxA).megaui_textures = ctxA.megaui_textures)
    ∧ ((set_megaui_texture 9 texA ctxA).ui = ctxA.ui
      ∧ (set_megaui_texture 9 texA ctxA).ui_draw_list = ctxA.ui_draw_list
      ∧ (set_megaui_texture 9 texA ctxA).input_processed_this_frame =
          ctxA.input_processed_this_frame)
    ∧ lookupTexture (set_megaui_texture 9 texA ctxA).megaui_textures 9 =
        some texA
    ∧ (∀ h1, h1 ≠ 9 →
        lookupTexture (set_megaui_texture 9 texA ctxA).megaui_textures h1 =
          lookupTexture ctxA.megaui_textures h1) :=
  non_widget_calls_no_forwarding 3 9 texA ctxA

end MegauiMacroquad
